import Mathlib

/-!
Verification of the flash-protection browser extension core.

The content script (`content.js`) samples video frames, compares each frame's
mean luminance against the previously stored one, and blacks the video out when
the jump exceeds a sensitivity-derived threshold.  The background script
(`background.js`) validates and persists settings and broadcasts updates to all
registered tab contexts.  The popup (`part_000`) batches storage writes through
a keyed queue.  Luminance values, thresholds and times are modelled as
rationals; timers are modelled by an explicit record of pending timeouts and
running intervals.
-/

/-! ### Flash detector (content.js, `checkFrame`) -/

/-- The mutable state read and written by the frame-check loop:
`FlashProtector.state.lastBrightness`.  There is a single such scalar for the
whole page, shared by every monitored video. -/
structure DetectorState where
  lastBrightness : ℚ
deriving DecidableEq, Repr

/-- The initial state: `lastBrightness: 0` in `FlashProtector.state`. -/
def initState : DetectorState := ⟨0⟩

/-- One analyzed frame inside `checkFrame`: a blackout is triggered iff
`Math.abs(brightness - this.state.lastBrightness) > this.config.threshold`
(strict), and then `this.state.lastBrightness = brightness`.  The threshold
argument is the value of `config.threshold` in effect at this comparison
(it is mutable via the `chrome.storage.onChanged` listener). -/
def checkFrameStep (threshold : ℚ) (st : DetectorState) (brightness : ℚ) :
    Bool × DetectorState :=
  (decide (threshold < |brightness - st.lastBrightness|), ⟨brightness⟩)

/-- A run of the frame-check loop over the sequence of analyzed samples, each
paired with the threshold in effect at its comparison.  Returns the sequence of
flash (blackout-trigger) decisions. -/
def runDetector (st : DetectorState) : List (ℚ × ℚ) → List Bool
  | [] => []
  | (t, b) :: rest => (checkFrameStep t st b).1 :: runDetector (checkFrameStep t st b).2 rest

/-- The detector state after processing a list of (threshold, sample) pairs. -/
def stateAfter (st : DetectorState) : List (ℚ × ℚ) → DetectorState
  | [] => st
  | (t, b) :: rest => stateAfter (checkFrameStep t st b).2 rest

/-! ### Multi-video interleaving (content.js, shared `state.lastBrightness`) -/

/-- A run of frame checks for several videos interleaved: each event is
(video id, threshold in effect, measured brightness).  Every check of any video
reads and then overwrites the one shared `state.lastBrightness`. -/
def runShared (st : DetectorState) : List (ℕ × ℚ × ℚ) → List (ℕ × Bool)
  | [] => []
  | (vid, t, b) :: rest =>
    (vid, (checkFrameStep t st b).1) :: runShared (checkFrameStep t st b).2 rest

/-- The shared detector state after an interleaved multi-video run. -/
def sharedStateAfter (st : DetectorState) : List (ℕ × ℚ × ℚ) → DetectorState
  | [] => st
  | (_, t, b) :: rest => sharedStateAfter (checkFrameStep t st b).2 rest

/-! ### Sensitivity-to-threshold mapping -/

/-- content.js `init`: `this.config.threshold = 0.5 - (settings.userPreferences.lastSensitivity * 0.08)`. -/
def initThreshold (lastSensitivity : ℚ) : ℚ := 1/2 - lastSensitivity * (8/100)

/-- popup `updateSetting`: `const threshold = 0.5 - (value * 0.08)`. -/
def updateSettingThreshold (value : ℚ) : ℚ := 1/2 - value * (8/100)

/-- content.js `adjustSensitivity`:
`currentValue = Math.round((0.5 - threshold) / 0.08)`,
`newValue = Math.max(1, Math.min(5, currentValue + (change > 0 ? 1 : -1)))`,
`newThreshold = 0.5 - (newValue * 0.08)`.  Returns (newThreshold, newValue). -/
def adjustSensitivity (threshold change : ℚ) : ℚ × ℤ :=
  let currentValue : ℤ := round ((1/2 - threshold) / (8/100))
  let newValue : ℤ := max 1 (min 5 (currentValue + (if 0 < change then 1 else -1)))
  (1/2 - (newValue : ℚ) * (8/100), newValue)

/-! ### Per-video protection timers (content.js, `triggerBlackout` /
`triggerSeekProtection`) -/

/-- What a pending `setTimeout` will do when it fires. -/
inductive TimerKind
  | blackout
  | seekHold
deriving DecidableEq, Repr

/-- A live (scheduled, not yet fired, not cleared) `setTimeout`. -/
structure PendingTimeout where
  id : ℕ
  fireAt : ℚ
  kind : TimerKind
deriving DecidableEq, Repr

/-- The record stored in `FlashProtector.state.activeTimers` for a video.
`triggerBlackout` stores `{timeout, startTime}`; `triggerSeekProtection` stores
`{timeout, fadeInterval, startTime}` where `fadeInterval` is still `undefined`
at the moment of the `set` call (the interval is created later, inside the
timeout callback, and the stored record is never updated), so the stored
`fadeInterval` is always `none`. -/
structure StoredTimer where
  timeout : ℕ
  fadeInterval : Option ℕ
  startTime : ℚ
deriving DecidableEq, Repr

/-- Timer bookkeeping for one monitored video: the live timeouts, the live fade
intervals, the `activeTimers` record, and a fresh-id counter. -/
structure TimerSys where
  pending : List PendingTimeout
  intervals : List ℕ
  stored : Option StoredTimer
  nextId : ℕ
deriving DecidableEq, Repr

/-- No timers yet for this video. -/
def emptySys : TimerSys := ⟨[], [], none, 0⟩

/-- `config.blackoutDuration` (5000 ms). -/
def blackoutDuration : ℚ := 5000

/-- `config.seekProtectionDuration` (3000 ms). -/
def seekProtectionDuration : ℚ := 3000

/-- `clearTimeout(id)`: removes the pending timeout with that id; a no-op if it
already fired or was already cleared.  It never touches intervals. -/
def clearTimeoutId (i : ℕ) (s : TimerSys) : TimerSys :=
  { s with pending := s.pending.filter (fun p => p.id != i) }

/-- content.js `triggerBlackout`: clears the timeout recorded in the stored
`activeTimers` entry (if any), applies the blackout filter, schedules the
brightness restore at `now + blackoutDuration`, and stores the new record
`{timeout, startTime}`. -/
def triggerBlackout (now : ℚ) (s : TimerSys) : TimerSys :=
  let s1 := match s.stored with
    | some r => clearTimeoutId r.timeout s
    | none => s
  { s1 with
    pending := ⟨s1.nextId, now + blackoutDuration, .blackout⟩ :: s1.pending,
    stored := some ⟨s1.nextId, none, now⟩,
    nextId := s1.nextId + 1 }

/-- content.js `triggerSeekProtection`: clears the timeout recorded in the
stored entry (if any), applies the blackout filter, schedules the fade to begin
at `now + seekProtectionDuration`, and stores `{timeout, fadeInterval, startTime}`
with `fadeInterval` still `undefined`. -/
def triggerSeekProtection (now : ℚ) (s : TimerSys) : TimerSys :=
  let s1 := match s.stored with
    | some r => clearTimeoutId r.timeout s
    | none => s
  { s1 with
    pending := ⟨s1.nextId, now + seekProtectionDuration, .seekHold⟩ :: s1.pending,
    stored := some ⟨s1.nextId, none, now⟩,
    nextId := s1.nextId + 1 }

/-- A pending timeout fires: a blackout timeout restores brightness and deletes
the `activeTimers` record; a seek-hold timeout starts the fade `setInterval`
(the stored record is not updated, so the interval's id is recorded nowhere). -/
def fireTimeout (i : ℕ) (s : TimerSys) : TimerSys :=
  match s.pending.find? (fun p => p.id == i) with
  | none => s
  | some p =>
    let s1 := { s with pending := s.pending.filter (fun q => q.id != i) }
    match p.kind with
    | .blackout => { s1 with stored := none }
    | .seekHold => { s1 with intervals := s1.nextId :: s1.intervals, nextId := s1.nextId + 1 }

/-- The fade interval clears itself (`clearInterval(fadeInterval)`) once its
progress reaches 1; nothing else in the source ever clears it. -/
def fadeComplete (i : ℕ) (s : TimerSys) : TimerSys :=
  { s with intervals := s.intervals.filter (fun j => j != i) }

/-! ### Settings validation and the settingsUpdate message (background.js) -/

/-- Result of `parseFloat`: `none` models NaN (not parseable). -/
abbrev JsNumber := Option ℚ

/-- The `userPreferences` part of a settings payload. -/
structure UserPrefs where
  lastSensitivity : JsNumber
deriving DecidableEq, Repr

/-- A `settingsUpdate` payload.  `threshold = none` models the key being absent
(`'threshold' in settings` false); `some none` models a present value whose
`parseFloat` is NaN. -/
structure SettingsPayload where
  threshold : Option JsNumber
  userPreferences : Option UserPrefs
deriving DecidableEq, Repr

/-- background.js `validateSettings`: reject a missing object; if `threshold`
is present, reject NaN, `< 0.1`, or `> 0.5`; if `userPreferences` is present,
reject a `lastSensitivity` that is NaN, `< 1`, or `> 5`. -/
def validateSettings : Option SettingsPayload → Bool
  | none => false
  | some s =>
    (match s.threshold with
      | none => true
      | some none => false
      | some (some t) => decide (1/10 ≤ t) && decide (t ≤ 1/2)) &&
    (match s.userPreferences with
      | none => true
      | some up =>
        match up.lastSensitivity with
        | none => false
        | some v => decide (1 ≤ v) && decide (v ≤ 5))

/-- The response object sent by the background message handler. -/
structure Response where
  success : Bool
  error : Option String
deriving DecidableEq, Repr

/-- The `settingsUpdate` branch of the background `onMessage` handler: if
`validateSettings` passes, the payload is persisted (via
`settingsManager.saveSettings`) and broadcast as `settingsUpdated`, answering
`{success:true}`; otherwise it answers `{success:false, error:'Invalid settings'}`,
persists nothing and broadcasts nothing.  Returns (response, persisted record
afterwards, list of broadcast messages). -/
def handleSettingsUpdate (msg : Option SettingsPayload) (persisted : Option SettingsPayload) :
    Response × Option SettingsPayload × List (String × Option SettingsPayload) :=
  if validateSettings msg then
    (⟨true, none⟩, msg, [("settingsUpdated", msg)])
  else
    (⟨false, some "Invalid settings"⟩, persisted, [])

/-! ### Broadcast with pruning (background.js, `broadcastToAllTabs`) -/

/-- The loop body of `broadcastToAllTabs` over a snapshot of the connection
registry.  `ec tabId` models `chrome.tabs.get` succeeding with
`tab.status === 'complete'`; `deliver tabId` models `chrome.tabs.sendMessage`
succeeding.  A tab that is gone/incomplete, or whose delivery fails, is deleted
from the live registry; a successful delivery is recorded.  Returns
(tabs that received the message, registry afterwards). -/
def broadcastLoop (ec deliver : ℕ → Bool) : List ℕ → List ℕ → List ℕ × List ℕ
  | [], conns => ([], conns)
  | t :: rest, conns =>
    if ec t then
      if deliver t then
        let r := broadcastLoop ec deliver rest conns
        (t :: r.1, r.2)
      else broadcastLoop ec deliver rest (conns.erase t)
    else broadcastLoop ec deliver rest (conns.erase t)

/-- background.js `broadcastToAllTabs`: iterates over a snapshot
(`new Map(state.connections)`) of the current registry, pruning the live
registry as it goes. -/
def broadcastToAllTabs (ec deliver : ℕ → Bool) (conns : List ℕ) : List ℕ × List ℕ :=
  broadcastLoop ec deliver conns conns

/-! ### The popup's keyed storage queue (part_000, `storageQueue`) -/

/-- A storage batch: an association list of key/value pairs, in insertion
order, as held by the `pending` Map. -/
abbrev Batch := List (String × ℚ)

/-- `Map.set`: replace the value in place if the key is present, else append. -/
def setKey (m : Batch) (k : String) (v : ℚ) : Batch :=
  if m.any (fun p => p.1 == k) then
    m.map (fun p => if p.1 == k then (k, v) else p)
  else m ++ [(k, v)]

/-- The popup's `storageQueue`: a keyed `pending` map, a `processing` flag, and
(for the development) the chronological record of `chrome.storage.sync.set`
payloads issued so far. -/
structure StorageQueue where
  pending : Batch
  processing : Bool
  flushes : List Batch
deriving DecidableEq, Repr

/-- A fresh, idle queue. -/
def sqInit : StorageQueue := ⟨[], false, []⟩

/-- `storageQueue.process()`: returns immediately if already processing or
nothing is pending; otherwise sets `processing`, snapshots the whole pending
map as one batch, clears it, and issues the `chrome.storage.sync.set`
synchronously (the flush's completion arrives later as a separate event). -/
def sqProcess (s : StorageQueue) : StorageQueue :=
  if s.processing || s.pending.isEmpty then s
  else { pending := [], processing := true, flushes := s.flushes ++ [s.pending] }

/-- `storageQueue.update(key, value)`: coalesces into `pending` (a `Map.set`,
superseding any not-yet-flushed value for the same key) and then calls
`process()` synchronously. -/
def sqUpdate (k : String) (v : ℚ) (s : StorageQueue) : StorageQueue :=
  sqProcess { s with pending := setKey s.pending k v }

/-- Completion of an in-flight `chrome.storage.sync.set` (the `finally` block):
clears `processing` and, if anything is pending, processes again. -/
def sqFlushComplete (s : StorageQueue) : StorageQueue :=
  sqProcess { s with processing := false }

/-- A burst of rapid `update` calls for one key, in submission order. -/
def sqUpdates (k : String) (vs : List ℚ) (s : StorageQueue) : StorageQueue :=
  vs.foldl (fun s v => sqUpdate k v s) s

/-- How many of the issued flushes carry the given key. -/
def flushesCarrying (k : String) (s : StorageQueue) : ℕ :=
  (s.flushes.filter (fun b => b.any (fun p => p.1 == k))).length

/-! ## Helper lemmas -/

theorem runDetector_cons (st : DetectorState) (t b : ℚ) (rest : List (ℚ × ℚ)) :
    runDetector st ((t, b) :: rest)
      = decide (t < |b - st.lastBrightness|) :: runDetector ⟨b⟩ rest := rfl

theorem stateAfter_cons (st : DetectorState) (t b : ℚ) (rest : List (ℚ × ℚ)) :
    stateAfter st ((t, b) :: rest) = stateAfter ⟨b⟩ rest := rfl

theorem runDetector_append (st : DetectorState) (xs ys : List (ℚ × ℚ)) :
    runDetector st (xs ++ ys) = runDetector st xs ++ runDetector (stateAfter st xs) ys := by
  induction xs generalizing st with
  | nil => rfl
  | cons p rest ih =>
    obtain ⟨t, b⟩ := p
    simp [runDetector_cons, stateAfter_cons, checkFrameStep, ih]

theorem length_runDetector (st : DetectorState) (xs : List (ℚ × ℚ)) :
    (runDetector st xs).length = xs.length := by
  induction xs generalizing st with
  | nil => rfl
  | cons p rest ih =>
    obtain ⟨t, b⟩ := p
    simp [runDetector_cons, ih]

theorem runShared_cons (st : DetectorState) (vid : ℕ) (t b : ℚ) (rest : List (ℕ × ℚ × ℚ)) :
    runShared st ((vid, t, b) :: rest)
      = (vid, decide (t < |b - st.lastBrightness|)) :: runShared ⟨b⟩ rest := rfl

theorem sharedStateAfter_cons (st : DetectorState) (vid : ℕ) (t b : ℚ) (rest : List (ℕ × ℚ × ℚ)) :
    sharedStateAfter st ((vid, t, b) :: rest) = sharedStateAfter ⟨b⟩ rest := rfl

theorem runShared_append (st : DetectorState) (xs ys : List (ℕ × ℚ × ℚ)) :
    runShared st (xs ++ ys) = runShared st xs ++ runShared (sharedStateAfter st xs) ys := by
  induction xs generalizing st with
  | nil => rfl
  | cons p rest ih =>
    obtain ⟨vid, t, b⟩ := p
    simp [runShared_cons, sharedStateAfter_cons, checkFrameStep, ih]

theorem length_runShared (st : DetectorState) (xs : List (ℕ × ℚ × ℚ)) :
    (runShared st xs).length = xs.length := by
  induction xs generalizing st with
  | nil => rfl
  | cons p rest ih =>
    obtain ⟨vid, t, b⟩ := p
    simp [runShared_cons, ih]

/-! ## Claim theorems -/

/-- C1: in the frame-check loop, a flash (blackout trigger) is raised at a
sample iff the absolute difference between that sample's luminance and the
immediately preceding sample's luminance strictly exceeds the threshold in
effect at that comparison.  The decision at position `pre.length + 1` depends
only on the two adjacent samples `b1, b2` and the threshold `t2` supplied at
that very comparison — thresholds in `pre`, `t1`, or `post` never enter, so a
threshold change applies from the comparison at which it is in effect onward
and never retroactively. -/
theorem flash_iff_delta_exceeds_threshold
    (st : DetectorState) (pre : List (ℚ × ℚ)) (t1 b1 t2 b2 : ℚ) (post : List (ℚ × ℚ)) :
    (runDetector st (pre ++ (t1, b1) :: (t2, b2) :: post))[pre.length + 1]?
      = some (decide (t2 < |b2 - b1|)) := by
  rw [runDetector_append]
  rw [List.getElem?_append_right (by rw [length_runDetector]; omega)]
  rw [length_runDetector]
  simp [runDetector_cons]

/-- C4 counterexample: with the initial state (`lastBrightness: 0`) and
threshold 0.26, the very first analyzed sample (luminance 0.5) itself triggers
a blackout: `|0.5 - 0| > 0.26`. -/
theorem first_sample_flash_cex :
    runDetector initState [(26/100, 1/2)] = [true] := by
  have h3 : |(1 : ℚ)/2| = 1/2 := abs_of_nonneg (by norm_num)
  simp [runDetector, checkFrameStep, initState, h3]
  norm_num [abs_of_nonneg]

/-- C4 amended: the first analyzed sample has no special treatment — it is
compared against the initial stored previous-luminance 0, triggers a blackout
iff its luminance differs from 0 by more than the threshold in effect, and then
seeds the stored previous-luminance with its own value. -/
theorem first_sample_compares_against_zero (t b : ℚ) (rest : List (ℚ × ℚ)) :
    runDetector initState ((t, b) :: rest)
      = decide (t < |b - 0|) :: runDetector ⟨b⟩ rest
    ∧ stateAfter initState [(t, b)] = ⟨b⟩ := ⟨rfl, rfl⟩

/-- C5 counterexample: there is no cooldown.  With threshold 0.26 and samples
0.5 then 1.0 from the initial state, the first comparison emits a flash
(delta 0.5) and the immediately following comparison emits a flash as well
(delta 0.5). -/
theorem no_cooldown_cex :
    runDetector initState [(26/100, 1/2), (26/100, 1)] = [true, true] := by
  have h3 : |(1 : ℚ)/2| = 1/2 := abs_of_nonneg (by norm_num)
  simp [runDetector, checkFrameStep, initState, h3]
  norm_num [abs_of_nonneg]

/-- C5 amended: the detector never enters a cooldown: the comparison
immediately following a flash-emitting comparison emits a flash exactly when
its own delta exceeds the threshold in effect there, regardless of the
preceding emission. -/
theorem flash_after_flash (st : DetectorState) (t1 b1 t2 b2 : ℚ) (post : List (ℚ × ℚ))
    (hflash : t1 < |b1 - st.lastBrightness|) :
    (runDetector st ((t1, b1) :: (t2, b2) :: post))[1]?
      = some (decide (t2 < |b2 - b1|)) := by
  simp [runDetector_cons]

/-- C5 amended, witness: threshold 0.26, samples 0.5 then 0.9 — the first
comparison flashes, and the second still flashes since its own delta 0.4
exceeds 0.26. -/
theorem flash_after_flash_witness :
    (runDetector initState [(26/100, 1/2), (26/100, 9/10)])[1]?
      = some (decide ((26 : ℚ)/100 < |9/10 - 1/2|)) :=
  flash_after_flash initState (26/100) (1/2) (26/100) (9/10) [] (by
    show (26 : ℚ)/100 < |1/2 - (0 : ℚ)|
    rw [sub_zero, abs_of_nonneg] <;> norm_num)

/-- C10: all monitored videos share the one `state.lastBrightness` scalar: in
any interleaved multi-video run, the comparison baseline for the frame of video
`v2` is the luminance `b1` of the most recently analyzed frame of any monitored
video (here video `v1`, which may differ from `v2`), not necessarily `v2`'s own
previous frame; and the check then overwrites the shared value with `b2`. -/
theorem shared_brightness_baseline (st : DetectorState) (pre : List (ℕ × ℚ × ℚ))
    (v1 v2 : ℕ) (t1 b1 t2 b2 : ℚ) (post : List (ℕ × ℚ × ℚ)) :
    (runShared st (pre ++ (v1, t1, b1) :: (v2, t2, b2) :: post))[pre.length + 1]?
      = some (v2, decide (t2 < |b2 - b1|))
    ∧ sharedStateAfter st (pre ++ [(v1, t1, b1), (v2, t2, b2)]) = ⟨b2⟩ := by
  constructor
  · rw [runShared_append]
    rw [List.getElem?_append_right (by rw [length_runShared]; omega)]
    rw [length_runShared]
    simp [runShared_cons]
  · induction pre generalizing st with
    | nil => rfl
    | cons p rest ih =>
      obtain ⟨vid, t, b⟩ := p
      simpa [sharedStateAfter_cons] using ih ⟨b⟩

/-- C3: for every sensitivity level s in {1..5}, the threshold computed on
settings load (`init`), by the popup's `updateSetting`, and by
`adjustSensitivity` (whenever its clamped new level is s) equals
0.5 − 0.08·s; the mapping is strictly decreasing in s, and over s = 1..5 it
ranges within [0.10, 0.42], attaining 0.42 at s = 1 and 0.10 at s = 5. -/
theorem threshold_formula (s : ℕ) (h1 : 1 ≤ s) (h5 : s ≤ 5) :
    initThreshold s = 1/2 - 8/100 * s
    ∧ updateSettingThreshold s = 1/2 - 8/100 * s
    ∧ (∀ th ch : ℚ, (adjustSensitivity th ch).2 = (s : ℤ) →
        (adjustSensitivity th ch).1 = 1/2 - 8/100 * s)
    ∧ (∀ s2 : ℕ, s < s2 → s2 ≤ 5 → initThreshold s2 < initThreshold s)
    ∧ 10/100 ≤ initThreshold s ∧ initThreshold s ≤ 42/100
    ∧ initThreshold 1 = 42/100 ∧ initThreshold 5 = 10/100 := by
  have hcast1 : (1 : ℚ) ≤ (s : ℚ) := by exact_mod_cast h1
  have hcast5 : (s : ℚ) ≤ 5 := by exact_mod_cast h5
  refine ⟨by unfold initThreshold; ring, by unfold updateSettingThreshold; ring, ?_, ?_, ?_, ?_, ?_, ?_⟩
  · intro th ch h
    have hfst : (adjustSensitivity th ch).1
        = 1/2 - ((adjustSensitivity th ch).2 : ℚ) * (8/100) := by
      simp [adjustSensitivity]
    rw [hfst, h]
    push_cast
    ring
  · intro s2 hlt _
    have : (s : ℚ) < (s2 : ℚ) := by exact_mod_cast hlt
    unfold initThreshold
    nlinarith
  · unfold initThreshold; nlinarith
  · unfold initThreshold; nlinarith
  · unfold initThreshold; norm_num
  · unfold initThreshold; norm_num

/-- C3 witness at sensitivity 3: the loaded threshold is 0.5 − 0.08·3 = 0.26. -/
theorem threshold_formula_witness :
    initThreshold 3 = 1/2 - 8/100 * 3 := by
  have h := (threshold_formula 3 (by norm_num) (by norm_num)).1
  simpa using h

/-- C2: a flash at t0 schedules the blackout to end at t0 + 5000; a second
flash at t1 (t0 ≤ t1 < t0 + 5000, while the blackout is active) makes
`triggerBlackout` clear the pending timer and schedule a new one, so the sole
pending restore fires at t1 + 5000, which is never earlier than the original
end t0 + 5000. -/
theorem blackout_timer_extends (t0 t1 : ℚ) (h01 : t0 ≤ t1)
    (hActive : t1 < t0 + blackoutDuration) :
    (triggerBlackout t1 (triggerBlackout t0 emptySys)).pending.map PendingTimeout.fireAt
        = [t1 + blackoutDuration]
    ∧ t0 + blackoutDuration ≤ t1 + blackoutDuration := by
  constructor
  · simp [triggerBlackout, clearTimeoutId, emptySys]
  · linarith

/-- C2 witness: flashes at t0 = 0 and t1 = 1000 ms. -/
theorem blackout_timer_extends_witness :
    (triggerBlackout 1000 (triggerBlackout 0 emptySys)).pending.map PendingTimeout.fireAt
        = [1000 + blackoutDuration]
    ∧ (0 : ℚ) + blackoutDuration ≤ 1000 + blackoutDuration :=
  blackout_timer_extends 0 1000 (by norm_num) (by norm_num [blackoutDuration])

/-- C6 counterexample: seek at t = 0; the seek-hold timeout (id 0) fires at
t = 3000, starting the fade interval (id 1); a flash at t = 3100, during the
fade ramp, calls `triggerBlackout` — which clears only the stored (already
fired) timeout and does not cancel the running fade interval.  Afterwards the
fade interval is still live alongside the new pending blackout timeout: two
live timers for the same video, and the ramp was not aborted. -/
theorem fade_interval_survives_cex :
    (triggerBlackout 3100 (fireTimeout 0 (triggerSeekProtection 0 emptySys))).intervals = [1]
    ∧ (triggerBlackout 3100 (fireTimeout 0 (triggerSeekProtection 0 emptySys))).pending.length
        = 1 := by
  constructor <;> rfl

/-- C6 amended: `triggerBlackout` and `triggerSeekProtection` cancel only the
timeout recorded in the stored `activeTimers` entry before starting a new one —
so when every live timeout is the stored one, at most one pending timeout
exists afterwards — but neither ever cancels a running fade interval: the
intervals are left untouched, so a flash during the seek fade ramp re-applies
the blackout and replaces the timeout while the fade interval keeps running. -/
theorem triggers_cancel_only_stored_timeout (s : TimerSys) (now : ℚ)
    (hstored : ∀ p ∈ s.pending, s.stored.map StoredTimer.timeout = some p.id) :
    (triggerBlackout now s).intervals = s.intervals
    ∧ (triggerSeekProtection now s).intervals = s.intervals
    ∧ (triggerBlackout now s).pending.map PendingTimeout.fireAt = [now + blackoutDuration]
    ∧ (triggerSeekProtection now s).pending.map PendingTimeout.fireAt
        = [now + seekProtectionDuration] := by
  have hclear : ∀ r : StoredTimer, s.stored = some r →
      s.pending.filter (fun p => p.id != r.timeout) = [] := by
    intro r hr
    rw [List.filter_eq_nil_iff]
    intro p hp
    have := hstored p hp
    rw [hr] at this
    simp only [Option.map_some'] at this
    simp [Option.some.injEq] at this
    simp [this]
  cases hr : s.stored with
  | none =>
    have hnil : s.pending = [] := by
      cases hpend : s.pending with
      | nil => rfl
      | cons p rest =>
        have := hstored p (by rw [hpend]; exact List.mem_cons_self p rest)
        rw [hr] at this
        simp at this
    refine ⟨?_, ?_, ?_, ?_⟩ <;> simp [triggerBlackout, triggerSeekProtection, hr, hnil]
  | some r =>
    have h0 := hclear r hr
    refine ⟨?_, ?_, ?_, ?_⟩ <;>
      simp [triggerBlackout, triggerSeekProtection, clearTimeoutId, hr, h0]

/-- C6 amended, witness: starting from the state after a blackout trigger at
t = 0 (one pending timeout, which is the stored one), a second trigger at
t = 7 leaves the (empty) interval list untouched and yields exactly one
pending timeout. -/
theorem triggers_cancel_only_stored_timeout_witness :
    (triggerBlackout 7 (triggerBlackout 0 emptySys)).intervals
        = (triggerBlackout 0 emptySys).intervals
    ∧ (triggerSeekProtection 7 (triggerBlackout 0 emptySys)).intervals
        = (triggerBlackout 0 emptySys).intervals
    ∧ (triggerBlackout 7 (triggerBlackout 0 emptySys)).pending.map PendingTimeout.fireAt
        = [7 + blackoutDuration]
    ∧ (triggerSeekProtection 7 (triggerBlackout 0 emptySys)).pending.map PendingTimeout.fireAt
        = [7 + seekProtectionDuration] :=
  triggers_cancel_only_stored_timeout (triggerBlackout 0 emptySys) 7 (by
    intro p hp
    simp [triggerBlackout, emptySys, clearTimeoutId] at hp
    simp [triggerBlackout, emptySys, clearTimeoutId, hp])

/-- C7: a `settingsUpdate` whose settings carry a threshold outside
[0.1, 0.5] or not parseable as a number is answered with
`{success:false, error:'Invalid settings'}`, is never persisted (the persisted
record is returned unchanged) and is never broadcast as `settingsUpdated`
(the broadcast list is empty). -/
theorem invalid_threshold_rejected (msg : SettingsPayload)
    (persisted : Option SettingsPayload) (tv : JsNumber)
    (hth : msg.threshold = some tv)
    (hbad : tv = none ∨ ∃ t : ℚ, tv = some t ∧ (t < 1/10 ∨ 1/2 < t)) :
    handleSettingsUpdate (some msg) persisted
      = (⟨false, some "Invalid settings"⟩, persisted, []) := by
  have hval : validateSettings (some msg) = false := by
    obtain ⟨mth, mup⟩ := msg
    simp only at hth
    subst hth
    rcases hbad with h | ⟨t, ht, hb⟩
    · subst h; simp [validateSettings]
    · subst ht
      rcases hb with hb | hb <;>
        · simp [validateSettings]
          intro h2 h3
          linarith
  simp [handleSettingsUpdate, hval]

/-- C7 witness: `threshold = 0.6` is rejected with `Invalid settings` and
neither persisted nor broadcast. -/
theorem invalid_threshold_rejected_witness :
    handleSettingsUpdate (some ⟨some (some (6/10)), none⟩) none
      = (⟨false, some "Invalid settings"⟩, none, []) :=
  invalid_threshold_rejected ⟨some (some (6/10)), none⟩ none (some (6/10)) rfl
    (Or.inr ⟨6/10, rfl, Or.inr (by norm_num)⟩)

/-- Loop invariant for `broadcastToAllTabs` when every tab is reachable and
delivery fails for exactly the tab `x`: the received list is the snapshot
without `x`, and the registry loses `x` (once, if the snapshot has no
duplicates). -/
theorem broadcastLoop_single_failure (x : ℕ) (snap : List ℕ) (hnd : snap.Nodup) :
    ∀ conns : List ℕ,
      broadcastLoop (fun _ => true) (fun t => t != x) snap conns
        = (snap.filter (fun t => t != x), if x ∈ snap then conns.erase x else conns) := by
  induction snap with
  | nil => intro conns; simp [broadcastLoop]
  | cons t rest ih =>
    intro conns
    have hnd' : rest.Nodup := hnd.of_cons
    by_cases hx : t = x
    · subst hx
      have hnotin : t ∉ rest := (List.nodup_cons.mp hnd).1
      simp [broadcastLoop, ih hnd', hnotin]
    · have hne : (t != x) = true := by simp [hx]
      simp only [broadcastLoop, if_pos rfl, hne, if_true]
      rw [ih hnd']
      have hxt : ¬ x = t := fun h => hx h.symm
      simp [hx, hxt]

/-- C8: broadcasting to K registered contexts when delivery to exactly one
context `x` fails (all tabs reachable and complete, `sendMessage` failing only
for `x`): the other K − 1 contexts still receive the message, and `x` is
removed from the connection registry while every other context stays
registered. -/
theorem broadcast_single_failure (conns : List ℕ) (x : ℕ)
    (hnd : conns.Nodup) (hx : x ∈ conns) :
    (broadcastToAllTabs (fun _ => true) (fun t => t != x) conns).1
        = conns.filter (fun t => t != x)
    ∧ (broadcastToAllTabs (fun _ => true) (fun t => t != x) conns).1.length
        = conns.length - 1
    ∧ (broadcastToAllTabs (fun _ => true) (fun t => t != x) conns).2
        = conns.erase x
    ∧ x ∉ (broadcastToAllTabs (fun _ => true) (fun t => t != x) conns).2 := by
  have h := broadcastLoop_single_failure x conns hnd conns
  unfold broadcastToAllTabs
  rw [h]
  refine ⟨rfl, ?_, by simp [hx], ?_⟩
  · have hfe : conns.filter (fun t => t != x) = conns.erase x :=
      (List.Nodup.erase_eq_filter hnd x).symm
    rw [hfe]
    exact List.length_erase_of_mem hx
  · simp [hx]
    exact hnd.not_mem_erase

/-- C8 witness: registry {1, 2, 3}, delivery fails only for tab 2: tabs 1 and 3
receive the message and tab 2 is pruned from the registry. -/
theorem broadcast_single_failure_witness :
    (broadcastToAllTabs (fun _ => true) (fun t => t != 2) [1, 2, 3]).1
        = [1, 2, 3].filter (fun t => t != 2)
    ∧ (broadcastToAllTabs (fun _ => true) (fun t => t != 2) [1, 2, 3]).1.length
        = [1, 2, 3].length - 1
    ∧ (broadcastToAllTabs (fun _ => true) (fun t => t != 2) [1, 2, 3]).2
        = [1, 2, 3].erase 2
    ∧ 2 ∉ (broadcastToAllTabs (fun _ => true) (fun t => t != 2) [1, 2, 3]).2 :=
  broadcast_single_failure [1, 2, 3] 2 (by decide) (by decide)

theorem setKey_singleton_same (k : String) (a v : ℚ) :
    setKey [(k, a)] k v = [(k, v)] := by
  simp [setKey]

theorem foldl_setKey_singleton (k : String) (a : ℚ) (vs : List ℚ) :
    vs.foldl (fun m v => setKey m k v) [(k, a)] = [(k, vs.getLastD a)] := by
  induction vs generalizing a with
  | nil => rfl
  | cons v rest ih =>
    rw [List.foldl_cons, setKey_singleton_same, ih, List.getLastD_cons]

theorem foldl_setKey_nil (k : String) (v2 : ℚ) (rest : List ℚ) :
    (v2 :: rest).foldl (fun m v => setKey m k v) [] = [(k, rest.getLastD v2)] := by
  rw [List.foldl_cons]
  have h0 : setKey [] k v2 = [(k, v2)] := rfl
  rw [h0, foldl_setKey_singleton]

theorem sqUpdate_processing (k : String) (v : ℚ) (s : StorageQueue)
    (h : s.processing = true) :
    sqUpdate k v s = { s with pending := setKey s.pending k v } := by
  simp [sqUpdate, sqProcess, h]

theorem sqUpdates_processing (k : String) (vs : List ℚ) (s : StorageQueue)
    (h : s.processing = true) :
    sqUpdates k vs s = { s with pending := vs.foldl (fun m v => setKey m k v) s.pending } := by
  induction vs generalizing s with
  | nil => simp [sqUpdates]
  | cons v rest ih =>
    have step := sqUpdate_processing k v s h
    simp only [sqUpdates, List.foldl_cons]
    have : sqUpdate k v s = { s with pending := setKey s.pending k v } := step
    rw [show (rest.foldl (fun s v => sqUpdate k v s) (sqUpdate k v s))
          = sqUpdates k rest (sqUpdate k v s) from rfl]
    rw [this, ih { s with pending := setKey s.pending k v } h]

/-- C9 counterexample: two rapid writes of values 1 then 2 to the key
`threshold`, submitted to an idle `storageQueue` within one synchronous burst:
the first `update` synchronously starts a flush carrying value 1, and after the
two flush completions the record shows two flushes carrying the key — the first
with the superseded value 1, not one single flush with the last value. -/
theorem storage_queue_two_flushes_cex :
    (sqFlushComplete (sqFlushComplete
        (sqUpdate "threshold" 2 (sqUpdate "threshold" 1 sqInit)))).flushes
      = [[("threshold", 1)], [("threshold", 2)]]
    ∧ flushesCarrying "threshold"
        (sqFlushComplete (sqFlushComplete
          (sqUpdate "threshold" 2 (sqUpdate "threshold" 1 sqInit)))) = 2 := by
  constructor <;> rfl

/-- C9 amended: N ≥ 2 rapid writes v1, v2, …, vN to the same key from an idle
queue produce exactly two flushes carrying the key: the first `update` starts
an immediate flush carrying v1, and all later writes coalesce (earlier queued
values superseded) into one further flush carrying the last value vN.  Writes
submitted while a flush is in flight thus coalesce to the latest value, but
"exactly one flush" holds only for them, not for the burst as a whole. -/
theorem storage_queue_two_flushes (k : String) (v1 v2 : ℚ) (rest : List ℚ) :
    (sqFlushComplete (sqFlushComplete
        (sqUpdates k (v2 :: rest) (sqUpdate k v1 sqInit)))).flushes
      = [[(k, v1)], [(k, rest.getLastD v2)]]
    ∧ flushesCarrying k
        (sqFlushComplete (sqFlushComplete
          (sqUpdates k (v2 :: rest) (sqUpdate k v1 sqInit)))) = 2 := by
  have h1 : sqUpdate k v1 sqInit
      = { pending := [], processing := true, flushes := [[(k, v1)]] } := rfl
  have h2 : sqUpdates k (v2 :: rest) (sqUpdate k v1 sqInit)
      = { pending := [(k, rest.getLastD v2)], processing := true,
          flushes := [[(k, v1)]] } := by
    rw [sqUpdates_processing k (v2 :: rest) (sqUpdate k v1 sqInit) rfl, h1]
    simp
    rw [show setKey [] k v2 = [(k, v2)] from rfl, foldl_setKey_singleton,
      List.getLastD_eq_getLast?]
  rw [h2]
  have h3 : sqFlushComplete
      { pending := [(k, rest.getLastD v2)], processing := true, flushes := [[(k, v1)]] }
      = { pending := [], processing := true,
          flushes := [[(k, v1)], [(k, rest.getLastD v2)]] } := by
    simp [sqFlushComplete, sqProcess]
  rw [h3]
  have h4 : sqFlushComplete
      { pending := [], processing := true,
        flushes := [[(k, v1)], [(k, rest.getLastD v2)]] }
      = { pending := [], processing := false,
          flushes := [[(k, v1)], [(k, rest.getLastD v2)]] } := by
    simp [sqFlushComplete, sqProcess]
  rw [h4]
  refine ⟨rfl, ?_⟩
  simp [flushesCarrying]
